import Mathlib

/-!
# Verification of the AutoSwitchLEDMode plugin

Shallow embedding of `src/examples/Devices/Keyboardio/Model100/AutoSwitchLEDMode.h`.
The plugin owns two private fields (`timer_running_ : bool`, `start_time_ : uint16_t`)
and two host callbacks: `onKeyEvent` and `afterEachCycle`.

The host framework services the plugin calls (`Runtime.millisAtCycleStart`,
`Runtime.hasTimeExpired`, `keyToggledOn`, `Key::isLayerKey`, the LED effect
singletons and the `EventHandlerResult` enum) are not part of the sources under
verification; they are modelled from the spec's boundary contract (spec section 6),
which describes the clock as a monotonic millisecond counter (hence timestamps are
`Nat` here) and the key-event shape as `{ transitionedOn, isLayerKey }`.
-/

set_option autoImplicit false

namespace AutoSwitchLEDMode

/-- Modelled from the spec: the key-event shape
`{ transitionedOn: bool, isLayerKey: bool }` of the host framework's `KeyEvent`
(the framework's `KeyEvent` type itself is not among the sources). -/
structure KeyEvent where
  transitionedOn : Bool
  isLayerKey : Bool
deriving DecidableEq

/-- Modelled from the spec: `keyToggledOn(event.state)` — whether the event is a
key-down transition. -/
def keyToggledOn (ev : KeyEvent) : Bool :=
  ev.transitionedOn

/-- Modelled from the spec: `event.key.isLayerKey()` — whether the key is a
layer-shift key. -/
def isLayerKey (ev : KeyEvent) : Bool :=
  ev.isLayerKey

/-- Modelled from the spec: the host's handler-status enum; `OK` means
"continue normal event processing". -/
inductive EventHandlerResult where
  | OK
  | EVENT_CONSUMED
  | ABORT
deriving DecidableEq

/-- The two externally-owned LED effects whose `activate()` the plugin calls. -/
inductive Effect where
  | stalker
  | colormap
deriving DecidableEq

/-- The plugin's private state (`AutoSwitchLEDMode.h`, lines 32-33):
`timer_running_` and `start_time_`. Timestamps follow the spec's boundary model
of a monotonic millisecond counter. -/
structure State where
  timer_running_ : Bool
  start_time_ : Nat
deriving DecidableEq

/-- `const uint16_t timeout = 2000` (line 9). -/
def timeout : Nat := 2000

/-- Modelled from the spec: `Runtime.hasTimeExpired(t, ttl)` at current time
`now` — `hasElapsed(since: Timestamp, duration: Duration)`: whether `ttl`
milliseconds have elapsed since `t`. -/
def hasTimeExpired (now t ttl : Nat) : Bool :=
  ttl ≤ now - t

/-- `onKeyEvent` (lines 11-21). `now` is `Runtime.millisAtCycleStart()`.
Returns the updated state, the list of effect activations performed (in call
order) and the handler result. -/
def onKeyEvent (now : Nat) (ev : KeyEvent) (s : State) :
    State × List Effect × EventHandlerResult :=
  let s1 : State := { s with start_time_ := now }
  let eff1 : List Effect :=
    if s1.timer_running_ && keyToggledOn ev && isLayerKey ev then
      [Effect.colormap]
    else []
  let s2 : State :=
    if !s1.timer_running_ && keyToggledOn ev && !isLayerKey ev then
      { s1 with timer_running_ := true }
    else s1
  let eff2 : List Effect :=
    if !s1.timer_running_ && keyToggledOn ev && !isLayerKey ev then
      [Effect.stalker]
    else []
  (s2, eff1 ++ eff2, EventHandlerResult.OK)

/-- `afterEachCycle` (lines 23-29). `now` is the current time at which
`Runtime.hasTimeExpired` is evaluated. -/
def afterEachCycle (now : Nat) (s : State) :
    State × List Effect × EventHandlerResult :=
  if hasTimeExpired now s.start_time_ timeout then
    ({ s with timer_running_ := false }, [Effect.colormap], EventHandlerResult.OK)
  else
    (s, [], EventHandlerResult.OK)

/-- One observable step of the plugin's life: a key event delivered with
cycle-start time `now`, or a per-cycle tick at time `now`. -/
inductive Step where
  | key (now : Nat) (ev : KeyEvent)
  | tick (now : Nat)
deriving DecidableEq

/-- The state after one step (effects and result discarded). -/
def stepState (s : State) : Step → State
  | Step.key now ev => (onKeyEvent now ev s).1
  | Step.tick now => (afterEachCycle now s).1

/-- The effects activated during one step. -/
def stepEffects (s : State) : Step → List Effect
  | Step.key now ev => (onKeyEvent now ev s).2.1
  | Step.tick now => (afterEachCycle now s).2.1

/-- The state after running a trace of steps from state `s`. -/
def runFrom (s : State) (tr : List Step) : State :=
  tr.foldl stepState s

/-- The initial state: `timer_running_ = false` (line 32); `start_time_` is an
uninitialized `uint16_t` in the source, so it is an arbitrary value `st0`. -/
def initState (st0 : Nat) : State :=
  ⟨false, st0⟩

/-- The state after running a trace from the initial state. -/
def run (st0 : Nat) (tr : List Step) : State :=
  runFrom (initState st0) tr

/-- All effects activated while running a trace from state `s`, in order. -/
def runEffects (s : State) : List Step → List Effect
  | [] => []
  | st :: tr => stepEffects s st ++ runEffects (stepState s st) tr

/-- Whether a step is a non-layer key-down event. -/
def isNonLayerKeydown : Step → Bool
  | Step.key _ ev => keyToggledOn ev && !isLayerKey ev
  | Step.tick _ => false

/-- Whether a trace contains a non-layer key-down event. -/
def hasNonLayerKeydown (tr : List Step) : Bool :=
  tr.any isNonLayerKeydown

/-- Whether a step is a layer-key key-down event. -/
def isLayerKeydown : Step → Bool
  | Step.key _ ev => keyToggledOn ev && isLayerKey ev
  | Step.tick _ => false

/-- `noExpiry st tr`: no cycle tick in `tr` observes an expired timeout, where
`st` is the recorded timestamp on entry and every key event re-records its own
time (as `onKeyEvent` does unconditionally). -/
def noExpiry : Nat → List Step → Bool
  | _, [] => true
  | _, Step.key n _ :: tr => noExpiry n tr
  | st, Step.tick n :: tr => !hasTimeExpired n st timeout && noExpiry st tr

/-- `goodSplit tr`: the trace contains a non-layer key-down after which no
cycle tick ever observes an expired timeout. -/
def goodSplit (tr : List Step) : Prop :=
  ∃ l1 n ev l2, tr = l1 ++ Step.key n ev :: l2 ∧ keyToggledOn ev = true ∧
    isLayerKey ev = false ∧ noExpiry n l2 = true

/-- The C1 invariant exactly as the spec states it (this definition follows
the spec's words, for comparison with the code): after running `tr` from the
initial state, `timer_running_` is true iff a non-layer key-down occurred and,
at current time `now`, fewer than 2000 ms have elapsed since the most recently
recorded event timestamp. -/
def claimC1Stated (st0 now : Nat) (tr : List Step) : Prop :=
  (run st0 tr).timer_running_ = true ↔
    (hasNonLayerKeydown tr = true ∧ now - (run st0 tr).start_time_ < timeout)

/-! ## Helper lemmas -/

/-- Closed form of a key-event step on the state: the timestamp becomes `now`
and the timer turns on exactly when it was off and the event is a non-layer
key-down. -/
theorem stepState_key (s : State) (now : Nat) (ev : KeyEvent) :
    stepState s (Step.key now ev) =
      ⟨s.timer_running_ || (keyToggledOn ev && !isLayerKey ev), now⟩ := by
  cases s with
  | mk b st =>
    cases b <;> cases hon : keyToggledOn ev <;> cases hlay : isLayerKey ev <;>
      simp [stepState, onKeyEvent, hon, hlay]

/-- Closed form of a tick step on the state. -/
theorem stepState_tick (s : State) (now : Nat) :
    stepState s (Step.tick now) =
      if hasTimeExpired now s.start_time_ timeout then ⟨false, s.start_time_⟩
      else s := by
  cases s with
  | mk b st =>
    by_cases hx : hasTimeExpired now st timeout = true
    · simp [stepState, afterEachCycle, hx]
    · simp only [Bool.not_eq_true] at hx
      simp [stepState, afterEachCycle, hx]

theorem goodSplit_nil : ¬ goodSplit [] := by
  rintro ⟨l1, n, ev, l2, heq, -, -, -⟩
  rcases l1 with _ | ⟨a, l1⟩ <;> simp at heq

theorem goodSplit_key_cons (n : Nat) (ev : KeyEvent) (tr : List Step) :
    goodSplit (Step.key n ev :: tr) ↔
      (keyToggledOn ev = true ∧ isLayerKey ev = false ∧ noExpiry n tr = true) ∨
        goodSplit tr := by
  constructor
  · rintro ⟨l1, m, e, l2, heq, hon, hlay, hex⟩
    rcases l1 with _ | ⟨a, l1⟩
    · simp only [List.nil_append, List.cons.injEq, Step.key.injEq] at heq
      obtain ⟨⟨hn, he⟩, htr⟩ := heq
      subst hn; subst he; subst htr
      exact Or.inl ⟨hon, hlay, hex⟩
    · simp only [List.cons_append, List.cons.injEq] at heq
      exact Or.inr ⟨l1, m, e, l2, heq.2, hon, hlay, hex⟩
  · rintro (⟨hon, hlay, hex⟩ | ⟨l1, m, e, l2, heq, hon, hlay, hex⟩)
    · exact ⟨[], n, ev, tr, rfl, hon, hlay, hex⟩
    · exact ⟨Step.key n ev :: l1, m, e, l2, by rw [heq]; rfl, hon, hlay, hex⟩

theorem goodSplit_tick_cons (n : Nat) (tr : List Step) :
    goodSplit (Step.tick n :: tr) ↔ goodSplit tr := by
  constructor
  · rintro ⟨l1, m, e, l2, heq, hon, hlay, hex⟩
    rcases l1 with _ | ⟨a, l1⟩
    · simp at heq
    · simp only [List.cons_append, List.cons.injEq] at heq
      exact ⟨l1, m, e, l2, heq.2, hon, hlay, hex⟩
  · rintro ⟨l1, m, e, l2, heq, hon, hlay, hex⟩
    exact ⟨Step.tick n :: l1, m, e, l2, by rw [heq]; rfl, hon, hlay, hex⟩

/-- Characterization of `timer_running_` over an arbitrary trace: the timer is
on at the end iff the trace contains a non-layer key-down with no expiring tick
after it, or it was on at the start and no tick in the whole trace expires. -/
theorem runFrom_timer_iff (tr : List Step) : ∀ s : State,
    (runFrom s tr).timer_running_ = true ↔
      goodSplit tr ∨
        (s.timer_running_ = true ∧ noExpiry s.start_time_ tr = true) := by
  induction tr with
  | nil =>
    intro s
    constructor
    · intro h
      exact Or.inr ⟨h, rfl⟩
    · rintro (h | ⟨h, -⟩)
      · exact absurd h goodSplit_nil
      · exact h
  | cons st tr ih =>
    intro s
    show (runFrom (stepState s st) tr).timer_running_ = true ↔ _
    rw [ih (stepState s st)]
    cases st with
    | key n ev =>
      rw [stepState_key, goodSplit_key_cons]
      cases hb : s.timer_running_ <;> cases hon : keyToggledOn ev <;>
        cases hlay : isLayerKey ev <;>
          simp [noExpiry, hb, hon, hlay] <;> tauto
    | tick n =>
      rw [stepState_tick, goodSplit_tick_cons]
      by_cases hx : hasTimeExpired n s.start_time_ timeout = true
      · rw [if_pos hx]
        simp [noExpiry, hx]
      · rw [if_neg (by simpa using hx)]
        simp only [Bool.not_eq_true] at hx
        simp [noExpiry, hx]

/-- Any true timer traces back to a non-layer key-down processed while the
timer was off, or to the timer already being on at the start of the trace. -/
theorem timer_origin (tr : List Step) : ∀ s : State,
    (runFrom s tr).timer_running_ = true →
    s.timer_running_ = true ∨
      ∃ l1 n ev l2, tr = l1 ++ Step.key n ev :: l2 ∧ keyToggledOn ev = true ∧
        isLayerKey ev = false ∧ (runFrom s l1).timer_running_ = false := by
  induction tr with
  | nil =>
    intro s h
    exact Or.inl h
  | cons st tr ih =>
    intro s h
    rcases ih (stepState s st) h with h1 | ⟨l1, n, ev, l2, heq, hon, hlay, hoff⟩
    · by_cases hb : s.timer_running_ = true
      · exact Or.inl hb
      · have hb' : s.timer_running_ = false := by
          simpa using hb
        right
        cases st with
        | key m e =>
          rw [stepState_key] at h1
          simp only [hb', Bool.false_or] at h1
          simp only [Bool.and_eq_true, Bool.not_eq_true'] at h1
          exact ⟨[], m, e, tr, rfl, h1.1, h1.2, hb'⟩
        | tick m =>
          exfalso
          rw [stepState_tick] at h1
          by_cases hx : hasTimeExpired m s.start_time_ timeout = true
          · rw [if_pos hx] at h1
            exact Bool.false_ne_true h1
          · rw [if_neg (by simpa using hx)] at h1
            rw [hb'] at h1
            exact Bool.false_ne_true h1
    · exact Or.inr ⟨st :: l1, n, ev, l2, by rw [heq]; rfl, hon, hlay, hoff⟩

/-- Layer key-downs (indeed, any key events) never turn the timer off, and
ticks are absent, so a trace of layer key-downs keeps a running timer
running. -/
theorem layer_keydowns_keep_timer (tr : List Step) : ∀ s : State,
    s.timer_running_ = true → (∀ st ∈ tr, isLayerKeydown st = true) →
    (runFrom s tr).timer_running_ = true := by
  induction tr with
  | nil =>
    intro s h _
    exact h
  | cons st tr ih =>
    intro s h hall
    have hst := hall st (List.mem_cons_self st tr)
    cases st with
    | key n ev =>
      refine ih (stepState s (Step.key n ev)) ?_
        (fun x hx => hall x (List.mem_cons_of_mem _ hx))
      rw [stepState_key]
      simp [h]
    | tick n =>
      exact absurd hst (by simp [isLayerKeydown])

/-- Once the timeout has expired and no key event intervenes, every further
tick activates the colormap effect: a trace of expired ticks from any state
with recorded timestamp `st` produces exactly one colormap activation per
tick. -/
theorem runEffects_expired_ticks (st : Nat) (ms : List Nat) : ∀ b : Bool,
    (∀ m ∈ ms, hasTimeExpired m st timeout = true) →
    runEffects ⟨b, st⟩ (ms.map Step.tick) =
      List.replicate ms.length Effect.colormap := by
  induction ms with
  | nil =>
    intro b _
    rfl
  | cons m ms ih =>
    intro b h
    have hm : hasTimeExpired m st timeout = true := h m (List.mem_cons_self m ms)
    have h1 : stepEffects ⟨b, st⟩ (Step.tick m) = [Effect.colormap] := by
      simp [stepEffects, afterEachCycle, hm]
    have h2 : stepState ⟨b, st⟩ (Step.tick m) = ⟨false, st⟩ := by
      simp [stepState, afterEachCycle, hm]
    calc runEffects ⟨b, st⟩ ((m :: ms).map Step.tick)
        = stepEffects ⟨b, st⟩ (Step.tick m) ++
            runEffects (stepState ⟨b, st⟩ (Step.tick m)) (ms.map Step.tick) := rfl
      _ = [Effect.colormap] ++ runEffects ⟨false, st⟩ (ms.map Step.tick) := by
          rw [h1, h2]
      _ = [Effect.colormap] ++ List.replicate ms.length Effect.colormap := by
          rw [ih false (fun x hx => h x (List.mem_cons_of_mem _ hx))]
      _ = List.replicate (m :: ms).length Effect.colormap := by
          simp [List.replicate_succ]

/-! ## Claims -/

/-- C1, counterexample to the claim as stated: after the trace "non-layer
key-down at 0 ms, cycle tick at 2000 ms, key release at 2500 ms", evaluated at
2500 ms, a non-layer key-down has occurred and 0 ms (fewer than 2000) have
elapsed since the most recently recorded event timestamp (the release at
2500 ms also recorded it), yet `timer_running_` is false: the expiring tick at
2000 ms turned it off and a release never turns it back on. -/
theorem claim_C1_counterexample :
    ¬ claimC1Stated 0 2500
      [Step.key 0 ⟨true, false⟩, Step.tick 2000, Step.key 2500 ⟨false, false⟩] := by
  unfold claimC1Stated
  decide

/-- C1 (amended): for every sequence of key events and cycle ticks starting
from the initial state, `timer_running_` is true iff the sequence contains a
non-layer key-down after which no cycle tick observed 2000 ms or more elapsed
since the then most recently recorded event timestamp. -/
theorem claim_C1_amended (st0 : Nat) (tr : List Step) :
    (run st0 tr).timer_running_ = true ↔ goodSplit tr := by
  have h := runFrom_timer_iff tr (initState st0)
  simpa [run, initState] using h

/-- C2: a cycle tick invoked while the idle timer is running and the elapsed
time since the last recorded timestamp has reached 2000 ms sets
`timer_running_` to false and activates the colormap effect. -/
theorem claim_C2 (now : Nat) (s : State) (_hrun : s.timer_running_ = true)
    (hx : hasTimeExpired now s.start_time_ timeout = true) :
    (afterEachCycle now s).1.timer_running_ = false ∧
      (afterEachCycle now s).2.1 = [Effect.colormap] := by
  simp [afterEachCycle, hx]

theorem claim_C2_witness :
    (State.mk true 0).timer_running_ = true ∧
      hasTimeExpired 2000 (State.mk true 0).start_time_ timeout = true ∧
      ((afterEachCycle 2000 (State.mk true 0)).1.timer_running_ = false ∧
        (afterEachCycle 2000 (State.mk true 0)).2.1 = [Effect.colormap]) :=
  ⟨by decide, by decide, claim_C2 2000 (State.mk true 0) (by decide) (by decide)⟩

/-- C3: a cycle tick invoked in the Active state (`timer_running_ = true`)
while fewer than 2000 ms have elapsed since the last recorded timestamp
activates no effect and leaves `timer_running_` true. -/
theorem claim_C3 (now : Nat) (s : State) (hrun : s.timer_running_ = true)
    (hx : hasTimeExpired now s.start_time_ timeout = false) :
    (afterEachCycle now s).2.1 = [] ∧
      (afterEachCycle now s).1.timer_running_ = true := by
  simp [afterEachCycle, hx, hrun]

theorem claim_C3_witness :
    (State.mk true 0).timer_running_ = true ∧
      hasTimeExpired 1999 (State.mk true 0).start_time_ timeout = false ∧
      ((afterEachCycle 1999 (State.mk true 0)).2.1 = [] ∧
        (afterEachCycle 1999 (State.mk true 0)).1.timer_running_ = true) :=
  ⟨by decide, by decide, claim_C3 1999 (State.mk true 0) (by decide) (by decide)⟩

/-- C4: a key event received while the idle timer is not running, carrying a
key-down transition on a non-layer key, sets `timer_running_` to true and
activates the stalker effect. -/
theorem claim_C4 (now : Nat) (ev : KeyEvent) (s : State)
    (hrun : s.timer_running_ = false) (hon : keyToggledOn ev = true)
    (hlay : isLayerKey ev = false) :
    (onKeyEvent now ev s).1.timer_running_ = true ∧
      (onKeyEvent now ev s).2.1 = [Effect.stalker] := by
  simp [onKeyEvent, hrun, hon, hlay]

theorem claim_C4_witness :
    (State.mk false 0).timer_running_ = false ∧
      keyToggledOn (KeyEvent.mk true false) = true ∧
      isLayerKey (KeyEvent.mk true false) = false ∧
      ((onKeyEvent 1 (KeyEvent.mk true false) (State.mk false 0)).1.timer_running_ = true ∧
        (onKeyEvent 1 (KeyEvent.mk true false) (State.mk false 0)).2.1 = [Effect.stalker]) :=
  ⟨by decide, by decide, by decide,
    claim_C4 1 (KeyEvent.mk true false) (State.mk false 0)
      (by decide) (by decide) (by decide)⟩

/-- C5: a key event received while the idle timer is running, carrying a
key-down transition on a layer-shift key, activates the colormap effect and
leaves `timer_running_` unchanged; moreover any trace consisting only of layer
key-downs leaves `timer_running_` unchanged. -/
theorem claim_C5 (now : Nat) (ev : KeyEvent) (s : State) (tr : List Step)
    (hrun : s.timer_running_ = true) (hon : keyToggledOn ev = true)
    (hlay : isLayerKey ev = true) (htr : tr.all isLayerKeydown = true) :
    (onKeyEvent now ev s).2.1 = [Effect.colormap] ∧
      (onKeyEvent now ev s).1.timer_running_ = s.timer_running_ ∧
      (runFrom s tr).timer_running_ = s.timer_running_ := by
  refine ⟨by simp [onKeyEvent, hrun, hon, hlay], by simp [onKeyEvent, hrun, hon, hlay], ?_⟩
  rw [hrun]
  refine layer_keydowns_keep_timer tr s hrun ?_
  simpa [List.all_eq_true] using htr

theorem claim_C5_witness :
    (State.mk true 3).timer_running_ = true ∧
      keyToggledOn (KeyEvent.mk true true) = true ∧
      isLayerKey (KeyEvent.mk true true) = true ∧
      ([Step.key 8 ⟨true, true⟩, Step.key 9 ⟨true, true⟩].all isLayerKeydown = true) ∧
      ((onKeyEvent 7 (KeyEvent.mk true true) (State.mk true 3)).2.1 = [Effect.colormap] ∧
        (onKeyEvent 7 (KeyEvent.mk true true) (State.mk true 3)).1.timer_running_ =
          (State.mk true 3).timer_running_ ∧
        (runFrom (State.mk true 3)
            [Step.key 8 ⟨true, true⟩, Step.key 9 ⟨true, true⟩]).timer_running_ =
          (State.mk true 3).timer_running_) :=
  ⟨by decide, by decide, by decide, by decide,
    claim_C5 7 (KeyEvent.mk true true) (State.mk true 3)
      [Step.key 8 ⟨true, true⟩, Step.key 9 ⟨true, true⟩]
      (by decide) (by decide) (by decide) (by decide)⟩

/-- C6: every key event, regardless of key type, transition direction, or
current timer state, records the current cycle-start timestamp into
`start_time_`. -/
theorem claim_C6 (now : Nat) (ev : KeyEvent) (s : State) :
    (onKeyEvent now ev s).1.start_time_ = now := by
  cases s with
  | mk b st =>
    cases b <;> cases hon : keyToggledOn ev <;> cases hlay : isLayerKey ev <;>
      simp [onKeyEvent, hon, hlay]

/-- C8: both handlers return `EventHandlerResult.OK` ("continue normal event
processing") on every input; neither ever suppresses the event or errors. -/
theorem claim_C8 (now : Nat) (ev : KeyEvent) (s : State) :
    (onKeyEvent now ev s).2.2 = EventHandlerResult.OK ∧
      (afterEachCycle now s).2.2 = EventHandlerResult.OK := by
  constructor
  · rfl
  · by_cases hx : hasTimeExpired now s.start_time_ timeout = true
    · simp [afterEachCycle, hx]
    · simp only [Bool.not_eq_true] at hx
      simp [afterEachCycle, hx]

/-- C7: in every state reachable from the initial state, `timer_running_` is
true only if the trace contains a non-layer key-down that was processed while
the timer was not running; no other operation ever sets it to true. -/
theorem claim_C7 (st0 : Nat) (tr : List Step)
    (h : (run st0 tr).timer_running_ = true) :
    ∃ l1 n ev l2, tr = l1 ++ Step.key n ev :: l2 ∧ keyToggledOn ev = true ∧
      isLayerKey ev = false ∧ (run st0 l1).timer_running_ = false := by
  rcases timer_origin tr (initState st0) h with h1 | hx
  · exact absurd h1 (by simp [initState])
  · exact hx

theorem claim_C7_witness :
    (run 0 [Step.key 0 ⟨true, false⟩]).timer_running_ = true ∧
      (∃ l1 n ev l2, [Step.key 0 (KeyEvent.mk true false)] =
          l1 ++ Step.key n ev :: l2 ∧ keyToggledOn ev = true ∧
          isLayerKey ev = false ∧ (run 0 l1).timer_running_ = false) :=
  ⟨by decide, claim_C7 0 [Step.key 0 ⟨true, false⟩] (by decide)⟩

/-- C9: a cycle tick invoked when 2000 ms or more have elapsed since the last
recorded timestamp sets `timer_running_` to false and activates the colormap
effect even when the timer is not running; and once the timeout has elapsed
with no further key events, every subsequent cycle tick (each at a time not
earlier than the first) activates the colormap effect again. -/
theorem claim_C9 (now : Nat) (s : State) (ms : List Nat)
    (hx : hasTimeExpired now s.start_time_ timeout = true)
    (hms : ms.all (fun m => now ≤ m) = true) :
    (afterEachCycle now s).1.timer_running_ = false ∧
      (afterEachCycle now s).2.1 = [Effect.colormap] ∧
      runEffects s (Step.tick now :: ms.map Step.tick) =
        List.replicate (ms.length + 1) Effect.colormap := by
  refine ⟨by simp [afterEachCycle, hx], by simp [afterEachCycle, hx], ?_⟩
  have hall : ∀ m ∈ ms, hasTimeExpired m s.start_time_ timeout = true := by
    intro m hm
    have hnm : now ≤ m := by
      simpa using (List.all_eq_true.mp hms m hm)
    have hstep : now - s.start_time_ ≤ m - s.start_time_ :=
      Nat.sub_le_sub_right hnm s.start_time_
    have hx' : timeout ≤ now - s.start_time_ := by
      simpa [hasTimeExpired] using hx
    simpa [hasTimeExpired] using le_trans hx' hstep
  have h1 : stepEffects s (Step.tick now) = [Effect.colormap] := by
    simp [stepEffects, afterEachCycle, hx]
  have h2 : stepState s (Step.tick now) = ⟨false, s.start_time_⟩ := by
    simp [stepState, afterEachCycle, hx]
  calc runEffects s (Step.tick now :: ms.map Step.tick)
      = stepEffects s (Step.tick now) ++
          runEffects (stepState s (Step.tick now)) (ms.map Step.tick) := rfl
    _ = [Effect.colormap] ++
          runEffects ⟨false, s.start_time_⟩ (ms.map Step.tick) := by
        rw [h1, h2]
    _ = [Effect.colormap] ++ List.replicate ms.length Effect.colormap := by
        rw [runEffects_expired_ticks s.start_time_ ms false hall]
    _ = List.replicate (ms.length + 1) Effect.colormap := by
        simp [List.replicate_succ]

theorem claim_C9_witness :
    hasTimeExpired 2000 (State.mk false 0).start_time_ timeout = true ∧
      ([2500, 3000].all (fun m => 2000 ≤ m) = true) ∧
      ((afterEachCycle 2000 (State.mk false 0)).1.timer_running_ = false ∧
        (afterEachCycle 2000 (State.mk false 0)).2.1 = [Effect.colormap] ∧
        runEffects (State.mk false 0)
            (Step.tick 2000 :: [2500, 3000].map Step.tick) =
          List.replicate 3 Effect.colormap) :=
  ⟨by decide, by decide,
    claim_C9 2000 (State.mk false 0) [2500, 3000] (by decide) (by decide)⟩

/-- C10: a layer-key key-down received while the idle timer is not running
activates no effect and leaves `timer_running_` false; the only state change
is the recorded timestamp. -/
theorem claim_C10 (now : Nat) (ev : KeyEvent) (s : State)
    (hrun : s.timer_running_ = false) (hon : keyToggledOn ev = true)
    (hlay : isLayerKey ev = true) :
    (onKeyEvent now ev s).2.1 = [] ∧
      (onKeyEvent now ev s).1.timer_running_ = false ∧
      (onKeyEvent now ev s).1.start_time_ = now := by
  simp [onKeyEvent, hrun, hon, hlay]

theorem claim_C10_witness :
    (State.mk false 0).timer_running_ = false ∧
      keyToggledOn (KeyEvent.mk true true) = true ∧
      isLayerKey (KeyEvent.mk true true) = true ∧
      ((onKeyEvent 4 (KeyEvent.mk true true) (State.mk false 0)).2.1 = [] ∧
        (onKeyEvent 4 (KeyEvent.mk true true) (State.mk false 0)).1.timer_running_ = false ∧
        (onKeyEvent 4 (KeyEvent.mk true true) (State.mk false 0)).1.start_time_ = 4) :=
  ⟨by decide, by decide, by decide,
    claim_C10 4 (KeyEvent.mk true true) (State.mk false 0)
      (by decide) (by decide) (by decide)⟩

end AutoSwitchLEDMode
